import Mathlib

/-!
Verification of the configuration core of the newspaper4k repository,
a shallow embedding of `newspaper/configuration.py`.

The configuration object is a mutable settings aggregate.  We embed it as
a Lean structure; every mutating Python method becomes a function from the
old state to the new state.  Raising an exception is embedded as returning
`some errorMessage` together with the state at the moment the exception is
raised (in the source, both raises occur before any mutation).

Two values consumed by `configuration.py` live outside the supplied
source tree and are therefore parameters of the embedding:
the set of supported language codes (`get_available_languages`, from
`newspaper.utils`) and the release version string (`__version__`, from
`newspaper.version`).
-/

namespace Newspaper

/-- The stopword strategy classes imported from `newspaper.text`.  The
configuration core only selects one of these references; it never invokes
them, so each is an opaque tag. -/
inductive SWClass where
  | StopWords
  | StopWordsArabic
  | StopWordsChinese
  | StopWordsKorean
  | StopWordsHindi
  | StopWordsJapanese
  | StopWordsThai
deriving DecidableEq, Repr

/-- The parsing backend imported from `newspaper.parsers`; an opaque
capability reference. -/
inductive Parser where
  | mk
deriving DecidableEq, Repr

/-- `http.cookiejar.CookieJar`: an opaque, mutable cookie store.  `cj ()`
creates a fresh empty one. -/
structure CookieJar where
  contents : List String
deriving DecidableEq, Repr

/-- A fresh empty cookie store, the result of the call `cj()`. -/
def cjNew : CookieJar := ⟨[]⟩

/-- A Python string-keyed dict, embedded as an insertion-ordered
association list.  `dictGet` is `d.get(k)`: the value, or `None` when the
key is absent. -/
def dictGet (d : List (String × String)) (k : String) : Option String :=
  match d with
  | [] => none
  | (k1, v) :: rest => if k1 = k then some v else dictGet rest k

/-- Python `d[k] = v`: overwrite the value in place when the key exists,
otherwise append the pair. -/
def dictSet (d : List (String × String)) (k v : String) : List (String × String) :=
  match d with
  | [] => [(k, v)]
  | (k1, v1) :: rest => if k1 = k then (k1, v) :: rest else (k1, v1) :: dictSet rest k v

/-- The `requests_params` bag.  Each key of the Python dict becomes an
`Option` field so that key absence is representable: `none` means the key
is not present in the dict. -/
structure RequestsParams where
  timeout : Option Nat
  proxies : Option (List (String × String))
  headers : Option (List (String × String))
  cookies : Option CookieJar
deriving DecidableEq, Repr

/-- The `Configuration` object: every attribute assigned in
`Configuration.__init__`, in source order.  `language_field` embeds the
private attribute `_language`. -/
structure Configuration where
  MIN_WORD_COUNT : Nat
  MIN_SENT_COUNT : Nat
  MAX_TITLE : Nat
  MAX_TEXT : Nat
  MAX_KEYWORDS : Nat
  MAX_AUTHORS : Nat
  MAX_SUMMARY : Nat
  MAX_SUMMARY_SENT : Nat
  MAX_FILE_MEMO : Nat
  memoize_articles : Bool
  fetch_images : Bool
  image_dimension_ration : Rat
  follow_meta_refresh : Bool
  use_meta_language : Bool
  keep_article_html : Bool
  http_success_only : Bool
  language_field : String
  stopwords_class : SWClass
  requests_params : RequestsParams
  number_threads : Nat
  verbose : Bool
  thread_timeout_seconds : Nat
  ignored_content_types_defaults : List (String × String)
deriving DecidableEq, Repr

/-- `Configuration.__init__`, parameterized by the external `__version__`
string (from `newspaper.version`, outside the supplied sources).  All
defaults are the literals of the source. -/
def Configuration.init (version : String) : Configuration :=
  { MIN_WORD_COUNT := 300
    MIN_SENT_COUNT := 7
    MAX_TITLE := 200
    MAX_TEXT := 100000
    MAX_KEYWORDS := 35
    MAX_AUTHORS := 10
    MAX_SUMMARY := 5000
    MAX_SUMMARY_SENT := 5
    MAX_FILE_MEMO := 20000
    memoize_articles := true
    fetch_images := true
    image_dimension_ration := 16 / 9
    follow_meta_refresh := false
    use_meta_language := true
    keep_article_html := false
    http_success_only := true
    language_field := "en"
    stopwords_class := SWClass.StopWords
    requests_params :=
      { timeout := some 7
        proxies := some []
        headers := some [("User-Agent", "newspaper/" ++ version)]
        cookies := some cjNew }
    number_threads := 10
    verbose := false
    thread_timeout_seconds := 1
    ignored_content_types_defaults := [] }

/-- The `browser_user_agent` property getter.  The Python getter mutates:
it materializes an empty headers dict when the key is absent, then returns
`headers.get("User-Agent")`; we return the new state with the value. -/
def Configuration.browser_user_agent_get (c : Configuration) :
    Configuration × Option String :=
  match c.requests_params.headers with
  | none =>
      ({ c with requests_params := { c.requests_params with headers := some [] } },
        dictGet [] "User-Agent")
  | some h => (c, dictGet h "User-Agent")

/-- The `browser_user_agent` property setter: materialize an empty headers
dict when absent, then write the value under "User-Agent". -/
def Configuration.browser_user_agent_set (c : Configuration) (value : String) :
    Configuration :=
  match c.requests_params.headers with
  | none =>
      { c with requests_params :=
          { c.requests_params with headers := some (dictSet [] "User-Agent" value) } }
  | some h =>
      { c with requests_params :=
          { c.requests_params with headers := some (dictSet h "User-Agent" value) } }

/-- The `headers` property getter: `requests_params.get("headers")`. -/
def Configuration.headers_get (c : Configuration) : Option (List (String × String)) :=
  c.requests_params.headers

/-- The `headers` property setter: wholesale replacement of the headers
mapping. -/
def Configuration.headers_set (c : Configuration) (value : List (String × String)) :
    Configuration :=
  { c with requests_params := { c.requests_params with headers := some value } }

/-- The `request_timeout` property getter: `requests_params.get("timeout")`. -/
def Configuration.request_timeout_get (c : Configuration) : Option Nat :=
  c.requests_params.timeout

/-- The `request_timeout` property setter. -/
def Configuration.request_timeout_set (c : Configuration) (value : Nat) :
    Configuration :=
  { c with requests_params := { c.requests_params with timeout := some value } }

/-- The `proxies` property getter: `requests_params.get("proxies")`. -/
def Configuration.proxies_get (c : Configuration) : Option (List (String × String)) :=
  c.requests_params.proxies

/-- The `proxies` property setter. -/
def Configuration.proxies_set (c : Configuration) (value : List (String × String)) :
    Configuration :=
  { c with requests_params := { c.requests_params with proxies := some value } }

/-- The `language` property getter: returns `self._language`. -/
def Configuration.language_get (c : Configuration) : String :=
  c.language_field

/-- The static method `Configuration.get_stopwords_class`: the
priority-ordered, case-sensitive resolution of a language code to a
stopword strategy class. -/
def get_stopwords_class (language : String) : SWClass :=
  if language = "ko" then SWClass.StopWordsKorean
  else if language = "hi" then SWClass.StopWordsHindi
  else if language = "zh" then SWClass.StopWordsChinese
  else if language = "ar" ∨ language = "fa" then SWClass.StopWordsArabic
  else if language = "ja" then SWClass.StopWordsJapanese
  else if language = "th" then SWClass.StopWordsThai
  else SWClass.StopWords

/-- The static method that advertises the parsing backend: a fixed
reference, returned unconditionally. -/
def getParserBackend : Parser := Parser.mk

/-- The `language` property setter, parameterized by the externally
supplied list of supported codes (`get_available_languages`, from
`newspaper.utils`, outside the supplied sources).  The result pairs the
raised error message (`none` on success) with the state after the call;
both raises in the source occur before any attribute is mutated, so the
error cases return the state unchanged. -/
def Configuration.language_set (avail : List String) (c : Configuration)
    (value : String) : Option String × Configuration :=
  if value = "" ∨ value.length ≠ 2 then
    (some "Your input language must be a 2 char language code", c)
  else if value ∉ avail then
    (some ("We do not currently support input language " ++ value), c)
  else
    (none,
      { c with
          use_meta_language := false
          language_field := value
          stopwords_class := get_stopwords_class value })

/-- The operations of the configuration core that touch the state: every
property setter, plus the mutating `browser_user_agent` getter and the
state-independent `get_parser` query. -/
inductive Op where
  | setLanguage (value : String)
  | getBrowserUserAgent
  | setBrowserUserAgent (value : String)
  | setHeaders (value : List (String × String))
  | setRequestTimeout (value : Nat)
  | setProxies (value : List (String × String))
  | getParser
deriving DecidableEq, Repr

/-- State transition of one operation of the core.  A failing
`setLanguage` leaves the state at the point of the raise. -/
def applyOp (avail : List String) (c : Configuration) : Op → Configuration
  | Op.setLanguage value => (c.language_set avail value).2
  | Op.getBrowserUserAgent => c.browser_user_agent_get.1
  | Op.setBrowserUserAgent value => c.browser_user_agent_set value
  | Op.setHeaders value => c.headers_set value
  | Op.setRequestTimeout value => c.request_timeout_set value
  | Op.setProxies value => c.proxies_set value
  | Op.getParser => c

/-- Run a sequence of operations of the core, left to right. -/
def runOps (avail : List String) (c : Configuration) : List Op → Configuration
  | [] => c
  | op :: rest => runOps avail (applyOp avail c op) rest

/-- `class ArticleConfiguration(Configuration): pass` — a nominally
distinct type carrying exactly the base state. -/
structure ArticleConfiguration where
  toConfiguration : Configuration
deriving DecidableEq, Repr

/-- `class SourceConfiguration(Configuration): pass` — a nominally
distinct type carrying exactly the base state. -/
structure SourceConfiguration where
  toConfiguration : Configuration
deriving DecidableEq, Repr

/-- Construction of an `ArticleConfiguration`: inheritance runs the base
`__init__` unchanged. -/
def ArticleConfiguration.init (version : String) : ArticleConfiguration :=
  ⟨Configuration.init version⟩

/-- Construction of a `SourceConfiguration`: inheritance runs the base
`__init__` unchanged. -/
def SourceConfiguration.init (version : String) : SourceConfiguration :=
  ⟨Configuration.init version⟩

/-- Any inherited operation on an `ArticleConfiguration`: the base method
applied to the carried state. -/
def ArticleConfiguration.applyOp (avail : List String) (a : ArticleConfiguration)
    (op : Op) : ArticleConfiguration :=
  ⟨Newspaper.applyOp avail a.toConfiguration op⟩

/-- Any inherited operation on a `SourceConfiguration`: the base method
applied to the carried state. -/
def SourceConfiguration.applyOp (avail : List String) (s : SourceConfiguration)
    (op : Op) : SourceConfiguration :=
  ⟨Newspaper.applyOp avail s.toConfiguration op⟩

/-- Helper: on any code other than the seven special-cased ones, the
resolution falls through every branch to the general `StopWords`. -/
lemma get_stopwords_class_default (code : String)
    (h : code ∉ (["ko", "hi", "zh", "ar", "fa", "ja", "th"] : List String)) :
    get_stopwords_class code = SWClass.StopWords := by
  simp only [List.mem_cons, List.not_mem_nil, or_false, not_or] at h
  obtain ⟨h1, h2, h3, h4, h5, h6, h7⟩ := h
  simp [get_stopwords_class, h1, h2, h3, h4, h5, h6, h7]

/-- Claim C1: `get_stopwords_class` is a pure deterministic case-sensitive
mapping: `ko` to Korean, `hi` to Hindi, `zh` to Chinese, `ar` and `fa`
both to the identical Arabic strategy, `ja` to Japanese, `th` to Thai, and
every other code (including the fallback `en`) to the default general
strategy. -/
theorem claim_C1_get_stopwords_class_mapping :
    get_stopwords_class "ko" = SWClass.StopWordsKorean ∧
    get_stopwords_class "hi" = SWClass.StopWordsHindi ∧
    get_stopwords_class "zh" = SWClass.StopWordsChinese ∧
    get_stopwords_class "ar" = SWClass.StopWordsArabic ∧
    get_stopwords_class "fa" = SWClass.StopWordsArabic ∧
    get_stopwords_class "ar" = get_stopwords_class "fa" ∧
    get_stopwords_class "ja" = SWClass.StopWordsJapanese ∧
    get_stopwords_class "th" = SWClass.StopWordsThai ∧
    get_stopwords_class "en" = SWClass.StopWords ∧
    ∀ code : String,
      code ∉ (["ko", "hi", "zh", "ar", "fa", "ja", "th"] : List String) →
      get_stopwords_class code = SWClass.StopWords := by
  refine ⟨by decide, by decide, by decide, by decide, by decide, by decide,
    by decide, by decide, by decide, ?_⟩
  intro code h
  exact get_stopwords_class_default code h

/-- Claim C1 witness: the mapping theorem applied at the concrete code
`de`, which is none of the seven special cases. -/
theorem claim_C1_witness : get_stopwords_class "de" = SWClass.StopWords :=
  claim_C1_get_stopwords_class_mapping.2.2.2.2.2.2.2.2.2 "de" (by decide)

/-- Claim C10: `get_stopwords_class` is total and validates nothing: on
every string different from the seven special codes — unsupported codes,
the empty string, strings of any length — it returns the default general
strategy and cannot fail. -/
theorem claim_C10_get_stopwords_class_total (s : String)
    (h1 : s ≠ "ko") (h2 : s ≠ "hi") (h3 : s ≠ "zh") (h4 : s ≠ "ar")
    (h5 : s ≠ "fa") (h6 : s ≠ "ja") (h7 : s ≠ "th") :
    get_stopwords_class s = SWClass.StopWords := by
  simp [get_stopwords_class, h1, h2, h3, h4, h5, h6, h7]

/-- Claim C10 witness: the totality theorem applied at the empty string,
an input of length other than 2. -/
theorem claim_C10_witness : get_stopwords_class "" = SWClass.StopWords :=
  claim_C10_get_stopwords_class_total "" (by decide) (by decide) (by decide)
    (by decide) (by decide) (by decide) (by decide)

/-- Claim C2: the language setter raises exactly when the value is empty,
its length is not 2, or it is not contained in the externally supplied
supported set; all other operations of the core are total functions of
the state. -/
theorem claim_C2_language_set_error_iff (avail : List String)
    (c : Configuration) (v : String) :
    ((c.language_set avail v).1).isSome ↔
      (v = "" ∨ v.length ≠ 2 ∨ v ∉ avail) := by
  by_cases h1 : v = "" ∨ v.length ≠ 2
  · simp only [Configuration.language_set, if_pos h1, Option.isSome_some, true_iff]
    tauto
  · by_cases h2 : v ∉ avail
    · simp [Configuration.language_set, h1, h2]
    · simp [Configuration.language_set, h1, h2]

/-- Claim C3: a failing language assignment is atomic: on every invalid
value (empty, wrong length, or unsupported) the setter raises and the
whole configuration — in particular `language` and `stopwords_class` —
is exactly the previous state. -/
theorem claim_C3_language_set_atomic (avail : List String)
    (c : Configuration) (v : String)
    (h : v = "" ∨ v.length ≠ 2 ∨ v ∉ avail) :
    ((c.language_set avail v).1).isSome ∧
    (c.language_set avail v).2 = c ∧
    ((c.language_set avail v).2).language_field = c.language_field ∧
    ((c.language_set avail v).2).stopwords_class = c.stopwords_class := by
  by_cases h1 : v = "" ∨ v.length ≠ 2
  · simp [Configuration.language_set, h1]
  · have h2 : v ∉ avail := by tauto
    simp [Configuration.language_set, h1, h2]

/-- Claim C3 witness: the atomicity theorem applied to a fresh
configuration and the unsupported code `xx`, with the supported set
being just `en`. -/
theorem claim_C3_witness :
    (((Configuration.init "1.0").language_set ["en"] "xx").1).isSome ∧
    ((Configuration.init "1.0").language_set ["en"] "xx").2 =
      Configuration.init "1.0" ∧
    ((((Configuration.init "1.0").language_set ["en"] "xx").2)).language_field =
      (Configuration.init "1.0").language_field ∧
    ((((Configuration.init "1.0").language_set ["en"] "xx").2)).stopwords_class =
      (Configuration.init "1.0").stopwords_class :=
  claim_C3_language_set_atomic ["en"] (Configuration.init "1.0") "xx"
    (by decide)

/-- Helper: reading back the key just written into a Python dict yields
exactly the written value. -/
lemma dictGet_dictSet (d : List (String × String)) (k v : String) :
    dictGet (dictSet d k v) k = some v := by
  induction d with
  | nil => simp [dictGet, dictSet]
  | cons hd tl ih =>
      obtain ⟨k1, v1⟩ := hd
      by_cases hk : k1 = k
      · simp [dictGet, dictSet, hk]
      · simp [dictGet, dictSet, hk, ih]

/-- Claim C4: construction is total and yields the documented defaults:
`language` is the fallback `en`, `stopwords_class` is the general
strategy, the timeout is 7 seconds, the proxies mapping is empty, the
cookie store is fresh and empty, and the "User-Agent" header embeds the
version as `newspaper/` followed by the version string. -/
theorem claim_C4_construct_defaults (version : String) :
    (Configuration.init version).language_get = "en" ∧
    (Configuration.init version).stopwords_class = SWClass.StopWords ∧
    (Configuration.init version).request_timeout_get = some 7 ∧
    (Configuration.init version).proxies_get = some [] ∧
    (Configuration.init version).requests_params.cookies = some cjNew ∧
    ((Configuration.init version).browser_user_agent_get).2 =
      some ("newspaper/" ++ version) := by
  refine ⟨rfl, rfl, rfl, rfl, rfl, ?_⟩
  simp [Configuration.browser_user_agent_get, Configuration.init, dictGet]

/-- Claim C5: every delegated accessor round-trips: after setting
`browser_user_agent`, `headers`, `request_timeout` or `proxies` to a
value, reading the same property returns exactly that value, for every
starting state (in particular when `requests_params` lacks a "headers"
key), and the `headers`, `request_timeout`, `proxies` setters replace
their target wholesale. -/
theorem claim_C5_accessor_roundtrip (c : Configuration) (ua : String)
    (hs : List (String × String)) (t : Nat) (p : List (String × String)) :
    ((c.browser_user_agent_set ua).browser_user_agent_get).2 = some ua ∧
    (c.headers_set hs).headers_get = some hs ∧
    (c.request_timeout_set t).request_timeout_get = some t ∧
    (c.proxies_set p).proxies_get = some p := by
  refine ⟨?_, rfl, rfl, rfl⟩
  cases hh : c.requests_params.headers with
  | none =>
      simp [Configuration.browser_user_agent_set,
        Configuration.browser_user_agent_get, hh, dictGet_dictSet]
  | some h0 =>
      simp [Configuration.browser_user_agent_set,
        Configuration.browser_user_agent_get, hh, dictGet_dictSet]

/-- Claim C8: the convenience accessors never fail: the
`browser_user_agent` getter and setter both materialize the headers
mapping when it is absent, and every getter on a possibly-absent key
returns the absent value `none` instead of failing. -/
theorem claim_C8_lazy_materialization (c : Configuration) (v : String) :
    (((c.browser_user_agent_get).1).requests_params.headers).isSome ∧
    ((c.browser_user_agent_set v).requests_params.headers).isSome ∧
    (c.requests_params.headers = none → (c.browser_user_agent_get).2 = none) ∧
    (c.requests_params.headers = none → c.headers_get = none) ∧
    (c.requests_params.timeout = none → c.request_timeout_get = none) ∧
    (c.requests_params.proxies = none → c.proxies_get = none) := by
  refine ⟨?_, ?_, ?_, ?_, ?_, ?_⟩
  · cases hh : c.requests_params.headers <;>
      simp [Configuration.browser_user_agent_get, hh]
  · cases hh : c.requests_params.headers <;>
      simp [Configuration.browser_user_agent_set, hh]
  · intro hh
    simp [Configuration.browser_user_agent_get, hh, dictGet]
  · intro hh
    simp [Configuration.headers_get, hh]
  · intro hh
    simp [Configuration.request_timeout_get, hh]
  · intro hh
    simp [Configuration.proxies_get, hh]

/-- A configuration whose `requests_params` bag is entirely empty: every
key is absent.  Exercises the lazy-materialization paths. -/
def noParamsConfig : Configuration :=
  { Configuration.init "1.0" with requests_params := ⟨none, none, none, none⟩ }

/-- Claim C8 witness: the lazy-materialization theorem applied at the
configuration with an empty `requests_params` bag. -/
theorem claim_C8_witness :
    ((((noParamsConfig).browser_user_agent_get).1).requests_params.headers).isSome ∧
    ((noParamsConfig.browser_user_agent_set "x").requests_params.headers).isSome ∧
    (noParamsConfig.browser_user_agent_get).2 = none ∧
    noParamsConfig.headers_get = none ∧
    noParamsConfig.request_timeout_get = none ∧
    noParamsConfig.proxies_get = none := by
  obtain ⟨a, b, f1, f2, f3, f4⟩ := claim_C8_lazy_materialization noParamsConfig "x"
  exact ⟨a, b, f1 rfl, f2 rfl, f3 rfl, f4 rfl⟩

/-- Helper: a successful language assignment records
`use_meta_language = false`. -/
lemma language_set_clears_flag (avail : List String) (c : Configuration)
    (v : String) (h : (c.language_set avail v).1 = none) :
    ((c.language_set avail v).2).use_meta_language = false := by
  by_cases h1 : v = "" ∨ v.length ≠ 2
  · simp [Configuration.language_set, h1] at h
  · by_cases h2 : v ∉ avail
    · simp [Configuration.language_set, h1, h2] at h
    · simp [Configuration.language_set, h1, h2]

/-- Helper: no operation of the core turns `use_meta_language` back on. -/
lemma applyOp_keeps_flag_false (avail : List String) (c : Configuration)
    (op : Op) (h : c.use_meta_language = false) :
    (applyOp avail c op).use_meta_language = false := by
  cases op with
  | setLanguage v =>
      by_cases h1 : v = "" ∨ v.length ≠ 2
      · simp [applyOp, Configuration.language_set, h1, h]
      · by_cases h2 : v ∉ avail
        · simp [applyOp, Configuration.language_set, h1, h2, h]
        · simp [applyOp, Configuration.language_set, h1, h2]
  | getBrowserUserAgent =>
      cases hh : c.requests_params.headers <;>
        simp [applyOp, Configuration.browser_user_agent_get, hh, h]
  | setBrowserUserAgent v =>
      cases hh : c.requests_params.headers <;>
        simp [applyOp, Configuration.browser_user_agent_set, hh, h]
  | setHeaders v => simp [applyOp, Configuration.headers_set, h]
  | setRequestTimeout v => simp [applyOp, Configuration.request_timeout_set, h]
  | setProxies v => simp [applyOp, Configuration.proxies_set, h]
  | getParser => simp [applyOp, h]

/-- Helper: `use_meta_language = false` is preserved by every operation
sequence. -/
lemma runOps_keeps_flag_false (avail : List String) (ops : List Op) :
    ∀ c : Configuration, c.use_meta_language = false →
      (runOps avail c ops).use_meta_language = false := by
  induction ops with
  | nil => intro c h; simpa [runOps] using h
  | cons op rest ih =>
      intro c h
      simp only [runOps]
      exact ih _ (applyOp_keeps_flag_false avail c op h)

/-- Claim C6: `use_meta_language` is `true` on a fresh configuration,
becomes `false` on the first successful explicit language assignment, and
stays `false` under every subsequent sequence of operations of the
core. -/
theorem claim_C6_use_meta_language_lifecycle (version : String)
    (avail : List String) (c : Configuration) (v : String) (ops : List Op)
    (h : (c.language_set avail v).1 = none) :
    (Configuration.init version).use_meta_language = true ∧
    ((c.language_set avail v).2).use_meta_language = false ∧
    (runOps avail ((c.language_set avail v).2) ops).use_meta_language = false := by
  refine ⟨rfl, language_set_clears_flag avail c v h, ?_⟩
  exact runOps_keeps_flag_false avail ops _ (language_set_clears_flag avail c v h)

/-- Claim C6 witness: the lifecycle theorem applied to a fresh
configuration, the successful assignment of `zh` (supported set
containing `en` and `zh`), and a follow-up sequence containing both a
failing language assignment and an unrelated setter. -/
theorem claim_C6_witness :
    (Configuration.init "1.0").use_meta_language = true ∧
    (((Configuration.init "1.0").language_set ["en", "zh"] "zh").2).use_meta_language
      = false ∧
    (runOps ["en", "zh"] (((Configuration.init "1.0").language_set ["en", "zh"] "zh").2)
      [Op.setLanguage "fr", Op.setRequestTimeout 3]).use_meta_language = false :=
  claim_C6_use_meta_language_lifecycle "1.0" ["en", "zh"]
    (Configuration.init "1.0") "zh" [Op.setLanguage "fr", Op.setRequestTimeout 3]
    (by decide)

/-- Helper: every operation of the core preserves consistency of
`stopwords_class` with `language`. -/
lemma applyOp_keeps_consistency (avail : List String) (c : Configuration)
    (op : Op) (h : c.stopwords_class = get_stopwords_class c.language_field) :
    (applyOp avail c op).stopwords_class =
      get_stopwords_class ((applyOp avail c op).language_field) := by
  cases op with
  | setLanguage v =>
      by_cases h1 : v = "" ∨ v.length ≠ 2
      · simp [applyOp, Configuration.language_set, h1, h]
      · by_cases h2 : v ∉ avail
        · simp [applyOp, Configuration.language_set, h1, h2, h]
        · simp [applyOp, Configuration.language_set, h1, h2]
  | getBrowserUserAgent =>
      cases hh : c.requests_params.headers <;>
        simp [applyOp, Configuration.browser_user_agent_get, hh, h]
  | setBrowserUserAgent v =>
      cases hh : c.requests_params.headers <;>
        simp [applyOp, Configuration.browser_user_agent_set, hh, h]
  | setHeaders v => simp [applyOp, Configuration.headers_set, h]
  | setRequestTimeout v => simp [applyOp, Configuration.request_timeout_set, h]
  | setProxies v => simp [applyOp, Configuration.proxies_set, h]
  | getParser => simp [applyOp, h]

/-- Helper: consistency of `stopwords_class` with `language` is preserved
by every operation sequence. -/
lemma runOps_keeps_consistency (avail : List String) (ops : List Op) :
    ∀ c : Configuration,
      c.stopwords_class = get_stopwords_class c.language_field →
      (runOps avail c ops).stopwords_class =
        get_stopwords_class ((runOps avail c ops).language_field) := by
  induction ops with
  | nil => intro c h; simpa [runOps] using h
  | cons op rest ih =>
      intro c h
      simp only [runOps]
      exact ih _ (applyOp_keeps_consistency avail c op h)

/-- Claim C7: the invariant `stopwords_class = get_stopwords_class
language` holds after construction and after every sequence of operations
on the canonical path (no direct write of `stopwords_class`). -/
theorem claim_C7_stopwords_consistency (version : String)
    (avail : List String) (c : Configuration) (ops : List Op)
    (h : c.stopwords_class = get_stopwords_class c.language_field) :
    (Configuration.init version).stopwords_class =
      get_stopwords_class ((Configuration.init version).language_field) ∧
    (runOps avail c ops).stopwords_class =
      get_stopwords_class ((runOps avail c ops).language_field) := by
  refine ⟨?_, runOps_keeps_consistency avail ops c h⟩
  simp [Configuration.init, get_stopwords_class]

/-- Claim C7 witness: the consistency theorem applied to a fresh
configuration and a sequence that successfully assigns `zh`, fails on
`xx`, and touches the timeout. -/
theorem claim_C7_witness :
    (Configuration.init "1.0").stopwords_class =
      get_stopwords_class ((Configuration.init "1.0").language_field) ∧
    (runOps ["en", "zh"] (Configuration.init "1.0")
        [Op.setLanguage "zh", Op.setLanguage "xx", Op.setRequestTimeout 3]).stopwords_class =
      get_stopwords_class ((runOps ["en", "zh"] (Configuration.init "1.0")
        [Op.setLanguage "zh", Op.setLanguage "xx", Op.setRequestTimeout 3]).language_field) :=
  claim_C7_stopwords_consistency "1.0" ["en", "zh"] (Configuration.init "1.0")
    [Op.setLanguage "zh", Op.setLanguage "xx", Op.setRequestTimeout 3] (by decide)

/-- Inherited operation sequences on an `ArticleConfiguration`. -/
def ArticleConfiguration.runOps (avail : List String)
    (a : ArticleConfiguration) (ops : List Op) : ArticleConfiguration :=
  ⟨Newspaper.runOps avail a.toConfiguration ops⟩

/-- Inherited operation sequences on a `SourceConfiguration`. -/
def SourceConfiguration.runOps (avail : List String)
    (s : SourceConfiguration) (ops : List Op) : SourceConfiguration :=
  ⟨Newspaper.runOps avail s.toConfiguration ops⟩

/-- Claim C9: `ArticleConfiguration` and `SourceConfiguration` are
behaviorally identical to `Configuration`: construction yields exactly
the base defaults, and every operation and operation sequence produces
exactly the state the base produces, with no override. -/
theorem claim_C9_subclasses_identical (version : String)
    (avail : List String) (a : ArticleConfiguration) (s : SourceConfiguration)
    (op : Op) (ops : List Op) :
    (ArticleConfiguration.init version).toConfiguration =
      Configuration.init version ∧
    (SourceConfiguration.init version).toConfiguration =
      Configuration.init version ∧
    (a.applyOp avail op).toConfiguration = applyOp avail a.toConfiguration op ∧
    (s.applyOp avail op).toConfiguration = applyOp avail s.toConfiguration op ∧
    (a.runOps avail ops).toConfiguration = runOps avail a.toConfiguration ops ∧
    (s.runOps avail ops).toConfiguration = runOps avail s.toConfiguration ops :=
  ⟨rfl, rfl, rfl, rfl, rfl, rfl⟩

end Newspaper
